import Mathlib

/-!
Group service of the Box client (`group.go`)

A shallow embedding of `GroupService` and of the two collaborators it calls,
the request builder `NewRequest` and the request executor `Do`.

* Go strings are `String`, Go `int` is `Int` (wrapped to 64 bits where the
  source adds), a Go pointer `*T` is `Option T` with `none` for `nil`.
* The collaborators are fields of `Client`; they read and write a world of
  type `σ` (network, server, token store), so two calls may answer differently.
* Every collaborator call is appended to a log, which is how "the builder is
  not invoked" and "the executor is invoked once" are stated.
* A Go function either returns its tuple or stops with a run-time panic
  (`Outcome.fault`); the one loop of the file is run with fuel.
-/

namespace Box

/-! ## Values -/

/-- A Go `error` value that is not `nil`; `msg` is what `Error()` prints. -/
structure GoError where
  msg : String
deriving DecidableEq, Repr

/-- The Go call `errors.New(text)`. -/
def errors.New (text : String) : GoError := ⟨text⟩

/-- The part of `http.Response` that `group.go` reads, and its status line. -/
structure Response where
  StatusCode : Int
  Status : String
deriving DecidableEq, Repr

/-- A Go map with string keys, as the list of its bindings (keys distinct). -/
abbrev GoMap (α : Type) := List (String × α)

/-- The assignment `m[k] = v`: overwrite the binding of `k`, or add one. -/
def GoMap.set {α : Type} : GoMap α → String → α → GoMap α
  | [], k, v => [(k, v)]
  | (k0, v0) :: rest, k, v =>
    if k0 = k then (k, v) :: rest else (k0, v0) :: GoMap.set rest k v

/-- The keys of a map. -/
def GoMap.keys {α : Type} (m : GoMap α) : List String := m.map Prod.fst

/-- A value stored in a `map[string]interface{}` by `group.go`. -/
inductive Value where
  | str (s : String)
  | strMap (m : GoMap String)
deriving DecidableEq, Repr

/-- The `body interface{}` argument handed to the request builder. -/
inductive Body where
  | nil
  | strMap (m : GoMap String)
  | anyMap (m : GoMap Value)
deriving DecidableEq, Repr

/-- The Go builtin `len` on a string: its number of bytes. -/
def len (s : String) : Nat := s.utf8ByteSize

/-- Go `int` arithmetic is 64-bit two's complement. -/
def wrapInt (x : Int) : Int := (x + 2 ^ 63) % 2 ^ 64 - 2 ^ 63

/-- The Go call `strconv.Itoa(i)`. -/
def strconv.Itoa (i : Int) : String := toString i

/-- What `fmt.Sprintf` appends for operands the format did not consume. -/
def fmt.extra (args : List String) : List Char :=
  ("%!(EXTRA " ++ ", ".intercalate (args.map fun a => "string=" ++ a) ++ ")").data

/-- The scan of `fmt.Sprintf` over a format made of plain text, `%s` and `%%`
(all that `group.go` writes), with string operands: `%s` prints the next
operand unchanged, or `%!s(MISSING)` when none is left. Other directives are
outside this model and are copied as written. -/
def fmt.scan : List Char → List String → List Char
  | [], [] => []
  | [], a :: rest => fmt.extra (a :: rest)
  | [c], args => c :: fmt.scan [] args
  | c :: d :: fs, args =>
    if c = '%' ∧ d = 's' then
      match args with
      | a :: rest => a.data ++ fmt.scan fs rest
      | [] => "%!s(MISSING)".data ++ fmt.scan fs []
    else if c = '%' ∧ d = '%' then '%' :: fmt.scan fs args
    else c :: fmt.scan (d :: fs) args

/-- The Go call `fmt.Sprintf(format, args...)` with string operands. -/
def fmt.Sprintf (format : String) (args : List String) : String :=
  ⟨fmt.scan format.data args⟩

/-! ## Records of `group.go` -/

structure Group where
  Type_ : String
  ID : String
  Name : String
  CreatedAt : String
  ModifiedAt : String
deriving DecidableEq, Repr

/-- The zero value of `var data Group`. -/
def Group.zero : Group := ⟨"", "", "", "", ""⟩

structure GroupCollection where
  TotalCount : Int
  Entries : List Group
  Limit : Int
  Offset : Int
deriving DecidableEq, Repr

structure CollectionInfo where
  TotalCount : Int
  Offset : Int
  Limit : Int
deriving DecidableEq, Repr

/-- A membership; `U` is the `User` record, declared elsewhere in the package. -/
structure Membership (U : Type) where
  Type_ : String
  ID : String
  User : Option U
  Group : Option Group
  Role : String

/-- The zero value of `var membership Membership`. -/
def Membership.zero (U : Type) : Membership U := ⟨"", "", none, none, ""⟩

structure MembershipCollection (U : Type) where
  info : CollectionInfo
  Entries : List (Option (Membership U))

/-- The zero value of `var membershipCollection MembershipCollection`. -/
def MembershipCollection.zero (U : Type) : MembershipCollection U := ⟨⟨0, 0, 0⟩, []⟩

/-! ## The collaborators -/

/-- What the executor is given to decode into: nothing (`nil`), or a pointer
to a record of one of these types. -/
inductive DestKind where
  | nil
  | group
  | groupCollection
  | membershipCollection
  | membership
  | collaborations
deriving DecidableEq, Repr

/-- The record behind a destination pointer; `U` and `K` are the `User` and
`Collaborations` records, declared elsewhere in the package. -/
def DestKind.Val (U K : Type) : DestKind → Type
  | .nil => Unit
  | .group => Group
  | .groupCollection => GroupCollection
  | .membershipCollection => MembershipCollection U
  | .membership => Membership U
  | .collaborations => K

/-- What one call of the executor leaves behind: the `*http.Response`, the
record behind the destination pointer after decoding, and the `error`. -/
structure DoResult (α : Type) where
  resp : Option Response
  dest : α
  err : Option GoError

/-- The embedded `*Client`, declared elsewhere in the package. `σ` is the world
the collaborators act on, `ρ` the values of `*http.Request` (`nil` included). -/
structure Client (σ ρ U K : Type) where
  NewRequest : σ → String → String → Body → (ρ × Option GoError) × σ
  Do : σ → ρ → (k : DestKind) → k.Val U K → DoResult (k.Val U K) × σ

/-- One entry of the log of collaborator calls. -/
inductive Call (ρ U K : Type) where
  | NewRequest (method path : String) (body : Body)
  | Do (req : ρ) (k : DestKind) (v : k.Val U K)

/-- How many times the builder was called. -/
def builderCalls {ρ U K : Type} : List (Call ρ U K) → Nat
  | [] => 0
  | .NewRequest _ _ _ :: rest => builderCalls rest + 1
  | .Do _ _ _ :: rest => builderCalls rest

/-- How many times the executor was called. -/
def executorCalls {ρ U K : Type} : List (Call ρ U K) → Nat
  | [] => 0
  | .NewRequest _ _ _ :: rest => executorCalls rest
  | .Do _ _ _ :: rest => executorCalls rest + 1

/-- The verb and path of every builder call, in order. -/
def builtRequests {ρ U K : Type} : List (Call ρ U K) → List (String × String)
  | [] => []
  | .NewRequest m p _ :: rest => (m, p) :: builtRequests rest
  | .Do _ _ _ :: rest => builtRequests rest

/-- The body of every builder call, in order. -/
def builtBodies {ρ U K : Type} : List (Call ρ U K) → List Body
  | [] => []
  | .NewRequest _ _ b :: rest => b :: builtBodies rest
  | .Do _ _ _ :: rest => builtBodies rest

/-! ## Running a method -/

/-- How a Go function call ends. -/
inductive Outcome (α : Type) where
  | ret (v : α)
  | fault
  | outOfFuel

/-- The world and the log of collaborator calls so far. -/
structure St (σ ρ U K : Type) where
  world : σ
  calls : List (Call ρ U K)

/-- A Go function body: from a state to an outcome and the state it leaves. -/
def Run (σ ρ U K α : Type) : Type := St σ ρ U K → Outcome α × St σ ρ U K

/-- Sequencing: a fault or an exhausted fuel stops the body. -/
def Run.bind {σ ρ U K α β : Type} (m : Run σ ρ U K α) (f : α → Run σ ρ U K β) :
    Run σ ρ U K β := fun s =>
  match m s with
  | (.ret v, s1) => f v s1
  | (.fault, s1) => (.fault, s1)
  | (.outOfFuel, s1) => (.outOfFuel, s1)

instance {σ ρ U K : Type} : Monad (Run σ ρ U K) where
  pure v := fun s => (.ret v, s)
  bind := Run.bind

/-- A run-time panic (here always a nil pointer dereference). -/
def Run.panic {σ ρ U K α : Type} : Run σ ρ U K α := fun s => (.fault, s)

/-- The loop was cut short by the fuel of the model. -/
def Run.exhausted {σ ρ U K α : Type} : Run σ ρ U K α := fun s => (.outOfFuel, s)

/-- The call `c.NewRequest(method, path, body)`, logged. -/
def newRequest {σ ρ U K : Type} (c : Client σ ρ U K) (method path : String) (body : Body) :
    Run σ ρ U K (ρ × Option GoError) := fun s =>
  match c.NewRequest s.world method path body with
  | (r, w) => (.ret r, ⟨w, s.calls ++ [.NewRequest method path body]⟩)

/-- The call `c.Do(req, v)`, logged. -/
def doRequest {σ ρ U K : Type} (c : Client σ ρ U K) (req : ρ) (k : DestKind) (v : k.Val U K) :
    Run σ ρ U K (DoResult (k.Val U K)) := fun s =>
  match c.Do s.world req k v with
  | (r, w) => (.ret r, ⟨w, s.calls ++ [.Do req k v]⟩)

/-- A method called in world `w`, with an empty log. -/
def Run.start {σ ρ U K α : Type} (m : Run σ ρ U K α) (w : σ) : Outcome α × St σ ρ U K :=
  m ⟨w, []⟩

/-! ## The methods of `GroupService` -/

section Methods

variable {σ ρ U K : Type}

/-- The `for` loop of `Groups`. `data` is the record behind the pointer `data`
(`none` while the pointer is `nil`); the condition reads `data.TotalCount`
first, which panics on a `nil` pointer. -/
def Groups.loop (c : Client σ ρ U K) :
    Nat → GoMap String → Option GroupCollection → List Group →
      Run σ ρ U K (List Group × Option GoError)
  | 0, _, _, _ => Run.exhausted
  | fuel + 1, reqBody, data, groups =>
    match data with
    | none => Run.panic
    | some d =>
      if (groups.length : Int) ≠ d.TotalCount ∧ d.TotalCount = 0 then do
        let reqBody := reqBody.set "offset" (strconv.Itoa (wrapInt (d.Offset + d.Limit)))
        let (req, err) ← newRequest c "GET" "/groups" (.strMap reqBody)
        match err with
        | some e => pure ([], some e)
        | none => do
          -- `_, err = c.Do(req, data)`: the error is assigned and not read
          let r ← doRequest c req .groupCollection d
          -- `if data != nil`: the pointer is not nil on this path
          Groups.loop c fuel reqBody (some r.dest) (groups ++ r.dest.Entries)
      else pure (groups, none)

/-- The method `Groups(filter)`. -/
def Groups (c : Client σ ρ U K) (fuel : Nat) (filter : String) :
    Run σ ρ U K (List Group × Option GoError) :=
  let reqBody : GoMap String := []
  let reqBody := if filter ≠ "" then reqBody.set "filter" filter else reqBody
  Groups.loop c fuel reqBody none []

/-- The method `CreateGroup(name)`. -/
def CreateGroup (c : Client σ ρ U K) (name : String) :
    Run σ ρ U K (Option Response × Option Group × Option GoError) := do
  let (req, err) ← newRequest c "POST" "/groups" (.strMap [("name", name)])
  match err with
  | some e => pure (none, none, some e)
  | none => do
    let r ← doRequest c req .group Group.zero
    pure (r.resp, some r.dest, r.err)

/-- The method `UpdateGroup(groupID, name)`. -/
def UpdateGroup (c : Client σ ρ U K) (groupID name : String) :
    Run σ ρ U K (Option Response × Option Group × Option GoError) := do
  let (req, err) ← newRequest c "PUT" (fmt.Sprintf "/groups/%s" [groupID])
    (.strMap [("name", name)])
  match err with
  | some e => pure (none, none, some e)
  | none => do
    let r ← doRequest c req .group Group.zero
    pure (r.resp, some r.dest, r.err)

/-- The method `DeleteGroup(groupID)`; `resp.StatusCode` panics on a `nil`
response. -/
def DeleteGroup (c : Client σ ρ U K) (groupID : String) :
    Run σ ρ U K (Option Response × Bool × Option GoError) := do
  let (req, err) ← newRequest c "PUT" (fmt.Sprintf "/groups/%s" [groupID]) .nil
  match err with
  | some e => pure (none, false, some e)
  | none => do
    let r ← doRequest c req .group Group.zero
    match r.resp with
    | none => Run.panic
    | some resp => pure (some resp, decide (resp.StatusCode = 204), r.err)

/-- The method `ListMembership(groupID)`. -/
def ListMembership (c : Client σ ρ U K) (groupID : String) :
    Run σ ρ U K (Option Response × Option (MembershipCollection U) × Option GoError) := do
  let (req, err) ← newRequest c "GET" (fmt.Sprintf "/groups/%s/memberships" [groupID]) .nil
  match err with
  | some e => pure (none, none, some e)
  | none => do
    let r ← doRequest c req .membershipCollection (MembershipCollection.zero U)
    pure (r.resp, some r.dest, r.err)

/-- The method `Membership(membershipEntryID)`. -/
def GroupService.Membership (c : Client σ ρ U K) (membershipEntryID : String) :
    Run σ ρ U K (Option Response × Option (Membership U) × Option GoError) := do
  let (req, err) ← newRequest c "GET"
    (fmt.Sprintf "/group_memberships/%s" [membershipEntryID]) .nil
  match err with
  | some e => pure (none, none, some e)
  | none => do
    let r ← doRequest c req .membership (Membership.zero U)
    pure (r.resp, some r.dest, r.err)

/-- The method `AddUserToGroup(uID, gID, role)`. -/
def AddUserToGroup (c : Client σ ρ U K) (uID gID role : String) :
    Run σ ρ U K (Option Response × Option (Membership U) × Option GoError) :=
  if len uID = 0 then
    pure (none, none, some (errors.New "must provide user ID"))
  else if len gID = 0 then
    pure (none, none, some (errors.New "must provide group ID"))
  else do
    let toSend : GoMap Value :=
      [("user", .strMap [("id", uID)]), ("group", .strMap [("id", gID)])]
    let toSend := if len role > 0 then toSend.set "role" (.str role) else toSend
    let (req, err) ← newRequest c "POST" "/group_memberships" (.anyMap toSend)
    match err with
    | some e => pure (none, none, some e)
    | none => do
      let r ← doRequest c req .membership (Membership.zero U)
      pure (r.resp, some r.dest, r.err)

/-- The method `UpdateMembership(membershipID, role)`. -/
def UpdateMembership (c : Client σ ρ U K) (membershipID role : String) :
    Run σ ρ U K (Option Response × Option (Membership U) × Option GoError) := do
  let (req, err) ← newRequest c "PUT"
    (fmt.Sprintf "/group_memberships/%s" [membershipID]) (.strMap [("role", role)])
  match err with
  | some e => pure (none, none, some e)
  | none => do
    let r ← doRequest c req .membership (Membership.zero U)
    pure (r.resp, some r.dest, r.err)

/-- The method `DeleteMembership(membershipID)`: it has no decoded value. -/
def DeleteMembership (c : Client σ ρ U K) (membershipID : String) :
    Run σ ρ U K (Option Response × Option GoError) := do
  let (req, err) ← newRequest c "DELETE"
    (fmt.Sprintf "/group_memberships/%s" [membershipID]) .nil
  match err with
  | some e => pure (none, some e)
  | none => do
    let r ← doRequest c req .nil ()
    pure (r.resp, r.err)

/-- The method `GroupCollaborations(groupID)`; `zero` is the zero value of
`var collaborations Collaborations`. -/
def GroupCollaborations (c : Client σ ρ U K) (zero : K) (groupID : String) :
    Run σ ρ U K (Option Response × Option K × Option GoError) := do
  let (req, err) ← newRequest c "GET" (fmt.Sprintf "/groups/%s/collaborations" [groupID]) .nil
  match err with
  | some e => pure (none, none, some e)
  | none => do
    let r ← doRequest c req .collaborations zero
    pure (r.resp, some r.dest, r.err)

end Methods

/-! ## A concrete client -/

/-- A client for evaluating the methods: its world counts the collaborator
calls, a request is its verb and path, the builder answers `buildErr`, and the
executor answers `resp` and `doErr` and decodes nothing. -/
def stubClient (buildErr : Option GoError) (resp : Option Response) (doErr : Option GoError) :
    Client Nat (String × String) Unit Unit where
  NewRequest := fun w method path _ => (((method, path), buildErr), w + 1)
  Do := fun w _ _ v => (⟨resp, v, doErr⟩, w + 1)

/-- A client whose executor serves a listing of `page` and fails with `doErr`. -/
def pageClient (page : GroupCollection) (doErr : Option GoError) :
    Client Nat (String × String) Unit Unit where
  NewRequest := fun w method path _ => (((method, path), none), w + 1)
  Do := fun w _ k v =>
    match k, v with
    | .groupCollection, _ => (⟨some ⟨200, "200 OK"⟩, page, doErr⟩, w + 1)
    | _, v => (⟨some ⟨200, "200 OK"⟩, v, doErr⟩, w + 1)

/-! ## The contract of a single-request method -/

/-- The error contract of a method that builds one request and executes it,
read off what the method `out` returned and logged when called in world `w`;
`resp`, `decodedNil` and `err` read the response, "the decoded value is nil"
and the error off the returned tuple.

* When the builder fails with `e`: the method returns a nil response, a nil
  decoded value and `e`, and the log holds the builder call alone.
* When the builder succeeds: the log holds the builder call and one executor
  call on the request just built, and the method returns the response and the
  error of that executor call. -/
def SurfacesErrors {σ ρ U K β : Type} (c : Client σ ρ U K) (w : σ)
    (out : Outcome β × St σ ρ U K)
    (resp : β → Option Response) (decodedNil : β → Prop) (err : β → Option GoError) : Prop :=
  ∃ method path body,
    (∀ req e w1, c.NewRequest w method path body = ((req, some e), w1) →
      ∃ v, out = (.ret v, ⟨w1, [.NewRequest method path body]⟩) ∧
        resp v = none ∧ decodedNil v ∧ err v = some e) ∧
    (∀ req w1, c.NewRequest w method path body = ((req, none), w1) →
      ∃ k z v, out = (.ret v, ⟨(c.Do w1 req k z).2,
          [.NewRequest method path body, .Do req k z]⟩) ∧
        resp v = (c.Do w1 req k z).1.resp ∧ err v = (c.Do w1 req k z).1.err)

/-- What a method that builds one request and executes it returns and logs:
`onErr` makes the tuple returned on a builder error, `onDone` the tuple
returned after the executor call. -/
def single {σ ρ U K β : Type} (c : Client σ ρ U K) (w : σ) (method path : String)
    (body : Body) (k : DestKind) (z : k.Val U K)
    (onErr : GoError → β) (onDone : DoResult (k.Val U K) → β) : Outcome β × St σ ρ U K :=
  match c.NewRequest w method path body with
  | ((_, some e), w1) => (.ret (onErr e), ⟨w1, [.NewRequest method path body]⟩)
  | ((req, none), w1) =>
    (.ret (onDone (c.Do w1 req k z).1),
      ⟨(c.Do w1 req k z).2, [.NewRequest method path body, .Do req k z]⟩)

/-! ## Lemmas -/

section Lemmas

variable {σ ρ U K : Type}

theorem len_eq_zero_iff (s : String) : len s = 0 ↔ s = "" := by
  obtain ⟨cs⟩ := s
  cases cs with
  | nil => simp [len, String.utf8ByteSize, String.utf8ByteSize.go]
  | cons c cs =>
    have h := Char.utf8Size_pos c
    simp [len, String.utf8ByteSize, String.utf8ByteSize.go]
    constructor
    · omega
    · intro h1; exact absurd (congrArg String.data h1) (by simp)

theorem len_pos_iff (s : String) : len s > 0 ↔ s ≠ "" := by
  rw [← not_iff_not, not_not, ← len_eq_zero_iff]; omega

theorem Sprintf_groups (id : String) :
    fmt.Sprintf "/groups/%s" [id] = "/groups/" ++ id := by
  apply String.ext
  simp [fmt.Sprintf, fmt.scan]

theorem Sprintf_groups_memberships (id : String) :
    fmt.Sprintf "/groups/%s/memberships" [id] = "/groups/" ++ id ++ "/memberships" := by
  apply String.ext
  simp [fmt.Sprintf, fmt.scan]

theorem Sprintf_group_memberships (id : String) :
    fmt.Sprintf "/group_memberships/%s" [id] = "/group_memberships/" ++ id := by
  apply String.ext
  simp [fmt.Sprintf, fmt.scan]

theorem Sprintf_groups_collaborations (id : String) :
    fmt.Sprintf "/groups/%s/collaborations" [id] = "/groups/" ++ id ++ "/collaborations" := by
  apply String.ext
  simp [fmt.Sprintf, fmt.scan]

theorem single_builtRequests {β : Type} (c : Client σ ρ U K) (w : σ) (method path : String)
    (body : Body) (k : DestKind) (z : k.Val U K)
    (onErr : GoError → β) (onDone : DoResult (k.Val U K) → β) :
    builtRequests (single c w method path body k z onErr onDone).2.calls = [(method, path)] ∧
    builtBodies (single c w method path body k z onErr onDone).2.calls = [body] := by
  rcases h : c.NewRequest w method path body with ⟨⟨req, err⟩, w1⟩
  cases err <;> simp [single, h, builtRequests, builtBodies]

theorem single_surfaces {β : Type} (c : Client σ ρ U K) (w : σ) (method path : String)
    (body : Body) (k : DestKind) (z : k.Val U K)
    (onErr : GoError → β) (onDone : DoResult (k.Val U K) → β)
    (resp : β → Option Response) (decodedNil : β → Prop) (err : β → Option GoError)
    (h1 : ∀ e, resp (onErr e) = none ∧ decodedNil (onErr e) ∧ err (onErr e) = some e)
    (h2 : ∀ r, resp (onDone r) = r.resp ∧ err (onDone r) = r.err) :
    SurfacesErrors c w (single c w method path body k z onErr onDone) resp decodedNil err := by
  refine ⟨method, path, body, ?_, ?_⟩
  · intro req e w1 h
    exact ⟨onErr e, by simp [single, h], h1 e⟩
  · intro req w1 h
    exact ⟨k, z, onDone (c.Do w1 req k z).1, by simp [single, h], h2 _⟩

theorem CreateGroup_start (c : Client σ ρ U K) (w : σ) (name : String) :
    (CreateGroup c name).start w =
      single c w "POST" "/groups" (.strMap [("name", name)]) .group Group.zero
        (fun e => (none, none, some e)) (fun r => (r.resp, some r.dest, r.err)) := by
  rcases h : c.NewRequest w "POST" "/groups" (.strMap [("name", name)]) with ⟨⟨req, err⟩, w1⟩
  cases err <;>
    simp [CreateGroup, single, Run.start, bind, Run.bind, newRequest, doRequest, pure, h]

theorem UpdateGroup_start (c : Client σ ρ U K) (w : σ) (groupID name : String) :
    (UpdateGroup c groupID name).start w =
      single c w "PUT" ("/groups/" ++ groupID) (.strMap [("name", name)]) .group Group.zero
        (fun e => (none, none, some e)) (fun r => (r.resp, some r.dest, r.err)) := by
  rcases h : c.NewRequest w "PUT" ("/groups/" ++ groupID) (.strMap [("name", name)])
    with ⟨⟨req, err⟩, w1⟩
  cases err <;>
    simp [UpdateGroup, Sprintf_groups, single, Run.start, bind, Run.bind, newRequest,
      doRequest, pure, h]

theorem ListMembership_start (c : Client σ ρ U K) (w : σ) (groupID : String) :
    (ListMembership c groupID).start w =
      single c w "GET" ("/groups/" ++ groupID ++ "/memberships") .nil
        .membershipCollection (MembershipCollection.zero U)
        (fun e => (none, none, some e)) (fun r => (r.resp, some r.dest, r.err)) := by
  rcases h : c.NewRequest w "GET" ("/groups/" ++ groupID ++ "/memberships") .nil
    with ⟨⟨req, err⟩, w1⟩
  cases err <;>
    simp [ListMembership, Sprintf_groups_memberships, single, Run.start, bind, Run.bind,
      newRequest, doRequest, pure, h]

theorem Membership_start (c : Client σ ρ U K) (w : σ) (membershipEntryID : String) :
    (GroupService.Membership c membershipEntryID).start w =
      single c w "GET" ("/group_memberships/" ++ membershipEntryID) .nil
        .membership (Membership.zero U)
        (fun e => (none, none, some e)) (fun r => (r.resp, some r.dest, r.err)) := by
  rcases h : c.NewRequest w "GET" ("/group_memberships/" ++ membershipEntryID) .nil
    with ⟨⟨req, err⟩, w1⟩
  cases err <;>
    simp [GroupService.Membership, Sprintf_group_memberships, single, Run.start, bind,
      Run.bind, newRequest, doRequest, pure, h]

theorem AddUserToGroup_start (c : Client σ ρ U K) (w : σ) (uID gID role : String)
    (hu : uID ≠ "") (hg : gID ≠ "") :
    (AddUserToGroup c uID gID role).start w =
      single c w "POST" "/group_memberships"
        (.anyMap (if role ≠ "" then
            [("user", .strMap [("id", uID)]), ("group", .strMap [("id", gID)]),
              ("role", .str role)]
          else [("user", .strMap [("id", uID)]), ("group", .strMap [("id", gID)])]))
        .membership (Membership.zero U)
        (fun e => (none, none, some e)) (fun r => (r.resp, some r.dest, r.err)) := by
  have hu1 : ¬ len uID = 0 := fun h => hu ((len_eq_zero_iff _).1 h)
  have hg1 : ¬ len gID = 0 := fun h => hg ((len_eq_zero_iff _).1 h)
  by_cases hr : role = ""
  · subst hr
    have hr1 : ¬ len "" > 0 := by decide
    rcases h : c.NewRequest w "POST" "/group_memberships"
      (.anyMap [("user", .strMap [("id", uID)]), ("group", .strMap [("id", gID)])])
      with ⟨⟨req, err⟩, w1⟩
    cases err <;>
      simp [AddUserToGroup, hu1, hg1, hr1, single, Run.start, bind, Run.bind,
        newRequest, doRequest, pure, h]
  · have hr1 : len role > 0 := (len_pos_iff _).2 hr
    rcases h : c.NewRequest w "POST" "/group_memberships"
      (.anyMap [("user", .strMap [("id", uID)]), ("group", .strMap [("id", gID)]),
        ("role", .str role)]) with ⟨⟨req, err⟩, w1⟩
    cases err <;>
      simp [AddUserToGroup, hu1, hg1, hr1, hr, GoMap.set, single, Run.start, bind,
        Run.bind, newRequest, doRequest, pure, h]

theorem UpdateMembership_start (c : Client σ ρ U K) (w : σ) (membershipID role : String) :
    (UpdateMembership c membershipID role).start w =
      single c w "PUT" ("/group_memberships/" ++ membershipID) (.strMap [("role", role)])
        .membership (Membership.zero U)
        (fun e => (none, none, some e)) (fun r => (r.resp, some r.dest, r.err)) := by
  rcases h : c.NewRequest w "PUT" ("/group_memberships/" ++ membershipID)
    (.strMap [("role", role)]) with ⟨⟨req, err⟩, w1⟩
  cases err <;>
    simp [UpdateMembership, Sprintf_group_memberships, single, Run.start, bind, Run.bind,
      newRequest, doRequest, pure, h]

theorem DeleteMembership_start (c : Client σ ρ U K) (w : σ) (membershipID : String) :
    (DeleteMembership c membershipID).start w =
      single c w "DELETE" ("/group_memberships/" ++ membershipID) .nil .nil ()
        (fun e => (none, some e)) (fun r => (r.resp, r.err)) := by
  rcases h : c.NewRequest w "DELETE" ("/group_memberships/" ++ membershipID) .nil
    with ⟨⟨req, err⟩, w1⟩
  cases err <;>
    simp [DeleteMembership, Sprintf_group_memberships, single, Run.start, bind, Run.bind,
      newRequest, doRequest, pure, h]

theorem GroupCollaborations_start (c : Client σ ρ U K) (w : σ) (zero : K) (groupID : String) :
    (GroupCollaborations c zero groupID).start w =
      single c w "GET" ("/groups/" ++ groupID ++ "/collaborations") .nil .collaborations zero
        (fun e => (none, none, some e)) (fun r => (r.resp, some r.dest, r.err)) := by
  rcases h : c.NewRequest w "GET" ("/groups/" ++ groupID ++ "/collaborations") .nil
    with ⟨⟨req, err⟩, w1⟩
  cases err <;>
    simp [GroupCollaborations, Sprintf_groups_collaborations, single, Run.start, bind,
      Run.bind, newRequest, doRequest, pure, h]

theorem DeleteGroup_builtRequests (c : Client σ ρ U K) (w : σ) (groupID : String) :
    builtRequests ((DeleteGroup c groupID).start w).2.calls = [("PUT", "/groups/" ++ groupID)] := by
  rcases h : c.NewRequest w "PUT" ("/groups/" ++ groupID) .nil with ⟨⟨req, err⟩, w1⟩
  cases err with
  | some e =>
    simp [DeleteGroup, Sprintf_groups, Run.start, bind, Run.bind, newRequest, doRequest,
      pure, h, builtRequests]
  | none =>
    rcases hd : c.Do w1 req .group Group.zero with ⟨⟨resp, dest, err⟩, w2⟩
    cases resp <;>
      simp [DeleteGroup, Sprintf_groups, Run.start, bind, Run.bind, newRequest, doRequest,
        pure, h, hd, builtRequests, Run.panic]

end Lemmas

/-! ## The claims -/

section Claims

variable {σ ρ U K : Type}

/-- C1: with an empty user ID `AddUserToGroup` returns a nil response, a nil
membership and the error "must provide user ID"; with a non-empty user ID and
an empty group ID it returns a nil response, a nil membership and the error
"must provide group ID", which is a different error. In both cases the log of
collaborator calls is empty and the world is untouched: neither the builder
nor the executor is invoked. -/
theorem AddUserToGroup_rejects_empty_ids (c : Client σ ρ U K) (w : σ)
    (uID gID role : String) :
    (uID = "" → (AddUserToGroup c uID gID role).start w =
      (.ret (none, none, some (errors.New "must provide user ID")), ⟨w, []⟩)) ∧
    (uID ≠ "" → gID = "" → (AddUserToGroup c uID gID role).start w =
      (.ret (none, none, some (errors.New "must provide group ID")), ⟨w, []⟩)) ∧
    errors.New "must provide user ID" ≠ errors.New "must provide group ID" := by
  refine ⟨?_, ?_, by decide⟩
  · intro hu
    subst hu
    have h0 : len "" = 0 := by decide
    simp [AddUserToGroup, h0, Run.start, pure]
  · intro hu hg
    subst hg
    have hu1 : ¬ len uID = 0 := fun h => hu ((len_eq_zero_iff _).1 h)
    have h0 : len "" = 0 := by decide
    simp [AddUserToGroup, hu1, h0, Run.start, pure]

theorem AddUserToGroup_rejects_empty_ids_witness :
    (AddUserToGroup (stubClient none none none) "" "7" "admin").start 0 =
      (.ret (none, none, some ⟨"must provide user ID"⟩), ⟨0, []⟩) ∧
    (AddUserToGroup (stubClient none none none) "5" "" "admin").start 0 =
      (.ret (none, none, some ⟨"must provide group ID"⟩), ⟨0, []⟩) :=
  ⟨(AddUserToGroup_rejects_empty_ids (stubClient none none none) 0 "" "7" "admin").1 rfl,
   (AddUserToGroup_rejects_empty_ids (stubClient none none none) 0 "5" "" "admin").2.1
     (by decide) rfl⟩

/-- C2: with a non-empty user ID and a non-empty group ID, `AddUserToGroup`
calls the builder once, with a `map[string]interface{}` body `m` in which
"user" is bound to the map with the single binding "id" ↦ user ID, "group" to
the map with the single binding "id" ↦ group ID, "role" is a key exactly when
the role is non-empty and is then bound to the role, and no other key occurs. -/
theorem AddUserToGroup_body (c : Client σ ρ U K) (w : σ) (uID gID role : String)
    (hu : uID ≠ "") (hg : gID ≠ "") :
    ∃ m : GoMap Value,
      builtBodies ((AddUserToGroup c uID gID role).start w).2.calls = [.anyMap m] ∧
      List.lookup "user" m = some (.strMap [("id", uID)]) ∧
      List.lookup "group" m = some (.strMap [("id", gID)]) ∧
      ("role" ∈ m.keys ↔ role ≠ "") ∧
      (role ≠ "" → List.lookup "role" m = some (.str role)) ∧
      (∀ k ∈ m.keys, k = "user" ∨ k = "group" ∨ k = "role") ∧
      m.keys.Nodup := by
  rw [AddUserToGroup_start c w uID gID role hu hg]
  refine ⟨_, (single_builtRequests ..).2, ?_⟩
  by_cases hr : role = ""
  · simp [hr, GoMap.keys, List.lookup]
  · simp [hr, GoMap.keys, List.lookup]

theorem AddUserToGroup_body_witness :
    ∃ m : GoMap Value,
      builtBodies ((AddUserToGroup (stubClient none none none) "5" "7" "admin").start 0).2.calls
        = [.anyMap m] ∧
      List.lookup "user" m = some (.strMap [("id", "5")]) ∧
      List.lookup "group" m = some (.strMap [("id", "7")]) ∧
      ("role" ∈ m.keys ↔ "admin" ≠ "") ∧
      ("admin" ≠ "" → List.lookup "role" m = some (.str "admin")) ∧
      (∀ k ∈ m.keys, k = "user" ∨ k = "group" ∨ k = "role") ∧
      m.keys.Nodup :=
  AddUserToGroup_body (stubClient none none none) 0 "5" "7" "admin" (by decide) (by decide)

/-- C3: when the builder accepts `DeleteGroup`'s request and the executor
answers it with a response `resp`, `DeleteGroup` returns that response, the
executor's error and a success flag that is true if and only if the status
code of `resp` is 204. -/
theorem DeleteGroup_flag_iff_204 (c : Client σ ρ U K) (w : σ) (groupID : String)
    (req : ρ) (w1 w2 : σ) (r : DoResult Group) (resp : Response)
    (hb : c.NewRequest w "PUT" ("/groups/" ++ groupID) .nil = ((req, none), w1))
    (hd : c.Do w1 req .group Group.zero = (r, w2))
    (hr : r.resp = some resp) :
    ∃ flag : Bool,
      ((DeleteGroup c groupID).start w).1 = .ret (some resp, flag, r.err) ∧
      (flag = true ↔ resp.StatusCode = 204) := by
  refine ⟨decide (resp.StatusCode = 204), ?_, by simp⟩
  simp [DeleteGroup, Sprintf_groups, Run.start, bind, Run.bind, newRequest, doRequest,
    pure, hb, hd, hr]

theorem DeleteGroup_flag_iff_204_witness :
    (∃ flag : Bool,
      ((DeleteGroup (stubClient none (some ⟨204, "204 No Content"⟩) none) "42").start 0).1 =
        .ret (some ⟨204, "204 No Content"⟩, flag, none) ∧
      (flag = true ↔ (204 : Int) = 204)) ∧
    (∃ flag : Bool,
      ((DeleteGroup (stubClient none (some ⟨404, "404 Not Found"⟩) none) "42").start 0).1 =
        .ret (some ⟨404, "404 Not Found"⟩, flag, none) ∧
      (flag = true ↔ (404 : Int) = 204)) :=
  ⟨DeleteGroup_flag_iff_204 (stubClient none (some ⟨204, "204 No Content"⟩) none) 0 "42"
      ("PUT", "/groups/42") 1 2 ⟨some ⟨204, "204 No Content"⟩, Group.zero, none⟩
      ⟨204, "204 No Content"⟩ rfl rfl rfl,
   DeleteGroup_flag_iff_204 (stubClient none (some ⟨404, "404 Not Found"⟩) none) 0 "42"
      ("PUT", "/groups/42") 1 2 ⟨some ⟨404, "404 Not Found"⟩, Group.zero, none⟩
      ⟨404, "404 Not Found"⟩ rfl rfl rfl⟩

/-- C6: `UpdateMembership` calls the builder exactly once, with the verb PUT,
the path "/group_memberships/" followed by the membership ID unchanged, and the
`map[string]string` body whose single binding is "role" ↦ role. -/
theorem UpdateMembership_request (c : Client σ ρ U K) (w : σ) (membershipID role : String) :
    ((UpdateMembership c membershipID role).start w).2.calls.head? =
      some (.NewRequest "PUT" ("/group_memberships/" ++ membershipID)
        (.strMap [("role", role)])) ∧
    builtRequests ((UpdateMembership c membershipID role).start w).2.calls =
      [("PUT", "/group_memberships/" ++ membershipID)] ∧
    builtBodies ((UpdateMembership c membershipID role).start w).2.calls =
      [.strMap [("role", role)]] := by
  rw [UpdateMembership_start]
  refine ⟨?_, (single_builtRequests ..).1, (single_builtRequests ..).2⟩
  rcases h : c.NewRequest w "PUT" ("/group_memberships/" ++ membershipID)
    (.strMap [("role", role)]) with ⟨⟨req, err⟩, w1⟩
  cases err <;> simp [single, h]

/-- C7: each single-request method calls the builder exactly once, with the
verb and path of the endpoint table, the ID argument inserted unchanged:
`CreateGroup` POST /groups, `UpdateGroup` PUT /groups/{id}, `DeleteGroup`
PUT /groups/{id}, `ListMembership` GET /groups/{id}/memberships, `Membership`
GET /group_memberships/{id}, `AddUserToGroup` (non-empty IDs) POST
/group_memberships, `UpdateMembership` PUT /group_memberships/{id},
`DeleteMembership` DELETE /group_memberships/{id}, `GroupCollaborations`
GET /groups/{id}/collaborations. -/
theorem endpoint_table (c : Client σ ρ U K) (w : σ) (zero : K)
    (id name role uID gID : String) :
    builtRequests ((CreateGroup c name).start w).2.calls = [("POST", "/groups")] ∧
    builtRequests ((UpdateGroup c id name).start w).2.calls = [("PUT", "/groups/" ++ id)] ∧
    builtRequests ((DeleteGroup c id).start w).2.calls = [("PUT", "/groups/" ++ id)] ∧
    builtRequests ((ListMembership c id).start w).2.calls =
      [("GET", "/groups/" ++ id ++ "/memberships")] ∧
    builtRequests ((GroupService.Membership c id).start w).2.calls =
      [("GET", "/group_memberships/" ++ id)] ∧
    (uID ≠ "" → gID ≠ "" →
      builtRequests ((AddUserToGroup c uID gID role).start w).2.calls =
        [("POST", "/group_memberships")]) ∧
    builtRequests ((UpdateMembership c id role).start w).2.calls =
      [("PUT", "/group_memberships/" ++ id)] ∧
    builtRequests ((DeleteMembership c id).start w).2.calls =
      [("DELETE", "/group_memberships/" ++ id)] ∧
    builtRequests ((GroupCollaborations c zero id).start w).2.calls =
      [("GET", "/groups/" ++ id ++ "/collaborations")] := by
  refine ⟨?_, ?_, DeleteGroup_builtRequests c w id, ?_, ?_, ?_, ?_, ?_, ?_⟩
  · rw [CreateGroup_start]; exact (single_builtRequests ..).1
  · rw [UpdateGroup_start]; exact (single_builtRequests ..).1
  · rw [ListMembership_start]; exact (single_builtRequests ..).1
  · rw [Membership_start]; exact (single_builtRequests ..).1
  · intro hu hg
    rw [AddUserToGroup_start c w uID gID role hu hg]; exact (single_builtRequests ..).1
  · rw [UpdateMembership_start]; exact (single_builtRequests ..).1
  · rw [DeleteMembership_start]; exact (single_builtRequests ..).1
  · rw [GroupCollaborations_start]; exact (single_builtRequests ..).1

theorem endpoint_table_witness :
    builtRequests ((AddUserToGroup (stubClient none none none) "5" "7" "").start 0).2.calls =
      [("POST", "/group_memberships")] ∧
    builtRequests ((DeleteGroup (stubClient none (some ⟨204, "204 No Content"⟩) none)
      "42").start 0).2.calls = [("PUT", "/groups/42")] :=
  ⟨(endpoint_table (stubClient none none none) 0 () "42" "staff" "" "5" "7").2.2.2.2.2.1
      (by decide) (by decide),
   (endpoint_table (stubClient none (some ⟨204, "204 No Content"⟩) none) 0 () "42" "staff" ""
      "5" "7").2.2.1⟩

/-- C8: each of `CreateGroup`, `UpdateGroup`, `ListMembership`, `Membership`,
`AddUserToGroup` (non-empty IDs), `UpdateMembership`, `DeleteMembership` and
`GroupCollaborations` meets `SurfacesErrors`: when the builder fails with `e`
the method returns a nil response, a nil decoded value (`DeleteMembership`
returns none at all) and `e`, and the executor is not called; otherwise the
executor is called exactly once, on the request built, and the method returns
the response and the error of that call. -/
theorem single_request_methods_surface_errors (c : Client σ ρ U K) (w : σ) (zero : K)
    (id name role uID gID : String) :
    SurfacesErrors c w ((CreateGroup c name).start w)
      (fun v => v.1) (fun v => v.2.1 = none) (fun v => v.2.2) ∧
    SurfacesErrors c w ((UpdateGroup c id name).start w)
      (fun v => v.1) (fun v => v.2.1 = none) (fun v => v.2.2) ∧
    SurfacesErrors c w ((ListMembership c id).start w)
      (fun v => v.1) (fun v => v.2.1 = none) (fun v => v.2.2) ∧
    SurfacesErrors c w ((GroupService.Membership c id).start w)
      (fun v => v.1) (fun v => v.2.1 = none) (fun v => v.2.2) ∧
    (uID ≠ "" → gID ≠ "" →
      SurfacesErrors c w ((AddUserToGroup c uID gID role).start w)
        (fun v => v.1) (fun v => v.2.1 = none) (fun v => v.2.2)) ∧
    SurfacesErrors c w ((UpdateMembership c id role).start w)
      (fun v => v.1) (fun v => v.2.1 = none) (fun v => v.2.2) ∧
    SurfacesErrors c w ((DeleteMembership c id).start w)
      (fun v => v.1) (fun _ => True) (fun v => v.2) ∧
    SurfacesErrors c w ((GroupCollaborations c zero id).start w)
      (fun v => v.1) (fun v => v.2.1 = none) (fun v => v.2.2) := by
  refine ⟨?_, ?_, ?_, ?_, ?_, ?_, ?_, ?_⟩
  · rw [CreateGroup_start]
    exact single_surfaces _ _ _ _ _ _ _ _ _ _ _ _ (fun _ => ⟨rfl, rfl, rfl⟩) (fun _ => ⟨rfl, rfl⟩)
  · rw [UpdateGroup_start]
    exact single_surfaces _ _ _ _ _ _ _ _ _ _ _ _ (fun _ => ⟨rfl, rfl, rfl⟩) (fun _ => ⟨rfl, rfl⟩)
  · rw [ListMembership_start]
    exact single_surfaces _ _ _ _ _ _ _ _ _ _ _ _ (fun _ => ⟨rfl, rfl, rfl⟩) (fun _ => ⟨rfl, rfl⟩)
  · rw [Membership_start]
    exact single_surfaces _ _ _ _ _ _ _ _ _ _ _ _ (fun _ => ⟨rfl, rfl, rfl⟩) (fun _ => ⟨rfl, rfl⟩)
  · intro hu hg
    rw [AddUserToGroup_start c w uID gID role hu hg]
    exact single_surfaces _ _ _ _ _ _ _ _ _ _ _ _ (fun _ => ⟨rfl, rfl, rfl⟩) (fun _ => ⟨rfl, rfl⟩)
  · rw [UpdateMembership_start]
    exact single_surfaces _ _ _ _ _ _ _ _ _ _ _ _ (fun _ => ⟨rfl, rfl, rfl⟩) (fun _ => ⟨rfl, rfl⟩)
  · rw [DeleteMembership_start]
    exact single_surfaces _ _ _ _ _ _ _ _ _ _ _ _ (fun _ => ⟨rfl, trivial, rfl⟩)
      (fun _ => ⟨rfl, rfl⟩)
  · rw [GroupCollaborations_start]
    exact single_surfaces _ _ _ _ _ _ _ _ _ _ _ _ (fun _ => ⟨rfl, rfl, rfl⟩) (fun _ => ⟨rfl, rfl⟩)

theorem single_request_methods_surface_errors_witness :
    SurfacesErrors (stubClient (some ⟨"bad path"⟩) none none) 0
      ((AddUserToGroup (stubClient (some ⟨"bad path"⟩) none none) "5" "7" "admin").start 0)
      (fun v => v.1) (fun v => v.2.1 = none) (fun v => v.2.2) ∧
    SurfacesErrors (stubClient none (some ⟨500, "500"⟩) (some ⟨"server error"⟩)) 0
      ((AddUserToGroup (stubClient none (some ⟨500, "500"⟩) (some ⟨"server error"⟩))
        "5" "7" "admin").start 0)
      (fun v => v.1) (fun v => v.2.1 = none) (fun v => v.2.2) :=
  ⟨(single_request_methods_surface_errors (stubClient (some ⟨"bad path"⟩) none none) 0 ()
      "42" "staff" "admin" "5" "7").2.2.2.2.1 (by decide) (by decide),
   (single_request_methods_surface_errors
      (stubClient none (some ⟨500, "500"⟩) (some ⟨"server error"⟩)) 0 ()
      "42" "staff" "admin" "5" "7").2.2.2.2.1 (by decide) (by decide)⟩

/-- C9: whatever the filter, the client and the world, `Groups` panics on its
first evaluation of the loop condition (a read through the nil `data`), with
an empty log and the world untouched: neither the builder nor the executor is
invoked. One unit of fuel is all the model needs to get there. -/
theorem Groups_faults_before_any_request (c : Client σ ρ U K) (w : σ) (fuel : Nat)
    (filter : String) :
    (Groups c (fuel + 1) filter).start w = (.fault, ⟨w, []⟩) ∧
    builderCalls ((Groups c (fuel + 1) filter).start w).2.calls = 0 ∧
    executorCalls ((Groups c (fuel + 1) filter).start w).2.calls = 0 := by
  have h : (Groups c (fuel + 1) filter).start w = (.fault, ⟨w, []⟩) := by
    simp [Groups, Groups.loop, Run.start, Run.panic]
  simp [h, builderCalls, executorCalls]

/-- C4, the code run on a full first page: against a server whose first page
holds one group and reports `total_count` 1, `Groups` panics before it builds
any request, so no first page is ever fetched. -/
theorem Groups_full_first_page_faults :
    (Groups (pageClient ⟨1, [⟨"group", "1", "staff", "", ""⟩], 100, 0⟩ none) 8 "").start 0 =
      (.fault, ⟨0, []⟩) := by
  simp [Groups, Groups.loop, Run.start, Run.panic]

/-- C5, the code run on a failing executor: against an executor that fails every
call, `Groups` panics before any request and returns no error value; and the
loop itself, entered with a non-nil accumulator, drops the executor's error
and returns a nil error. -/
theorem Groups_executor_error_not_returned :
    (Groups (pageClient ⟨0, [], 0, 0⟩ (some ⟨"connection refused"⟩)) 8 "").start 0 =
      (.fault, ⟨0, []⟩) ∧
    ((Groups.loop (pageClient ⟨2, [⟨"group", "2", "ops", "", ""⟩], 100, 0⟩
        (some ⟨"connection refused"⟩)) 8 [] (some ⟨0, [], 0, 0⟩)
        [⟨"group", "1", "staff", "", ""⟩]).start 0).1 =
      .ret ([⟨"group", "1", "staff", "", ""⟩, ⟨"group", "2", "ops", "", ""⟩], none) := by
  constructor
  · simp [Groups, Groups.loop, Run.start, Run.panic]
  · rfl

/-- C10, the code run on a nil response: when the builder succeeds and the
executor returns a nil response with an error, `DeleteGroup` panics on
`resp.StatusCode` after the two collaborator calls, and returns nothing. -/
theorem DeleteGroup_nil_response_faults :
    (DeleteGroup (stubClient none none (some ⟨"connection refused"⟩)) "42").start 0 =
      (.fault, ⟨2, [.NewRequest "PUT" "/groups/42" .nil,
        .Do ("PUT", "/groups/42") .group Group.zero]⟩) := by
  rfl

end Claims

end Box
